import Mathlib

/-!
Verification of the GKENetworkParamSet validation logic of
`pkg/controller/gkenetworkparamset/gnpcontroller_validations.go`
(openshift/cloud-provider-gcp), via a shallow embedding in Lean 4.

Go structs become Lean structures, Go string-typed enum constants become
Lean `String` constants, pointers that may be nil become `Option`, and the
`(value, error)` pairs returned by cloud collaborators become
`Except String` values (the `error` case carries the Go error message).
`metav1.Time` timestamps are modelled as `Nat` instants; `Time.After` is
the strict `>` comparison the Go code uses.
-/

namespace GnpValidations

/-! ## Reason / status string constants

The constant values below live in dependency packages
(`gke-networking-api`'s `networkv1` and `k8s.io/apimachinery`'s `metav1`),
not in this repository's sources; only their names are visible here.  Each
is modelled from the spec's reason-token taxonomy: the value is the token
the spec lists.  Only distinctness and fixedness of these strings matter
to the validators. -/

namespace networkv1

/-- Modelled from the spec: reason token `ConfigInvalid` (Go constant
`networkv1.GNPConfigInvalid`). -/
def GNPConfigInvalid : String := "ConfigInvalid"

/-- Modelled from the spec: reason token `SecondaryRangeAndDeviceModeUnspecified`. -/
def SecondaryRangeAndDeviceModeUnspecified : String :=
  "SecondaryRangeAndDeviceModeUnspecified"

/-- Modelled from the spec: reason token `DeviceModeCantBeUsedWithSecondaryRange`. -/
def DeviceModeCantBeUsedWithSecondaryRange : String :=
  "DeviceModeCantBeUsedWithSecondaryRange"

/-- Modelled from the spec: reason token `VPCNotFound`. -/
def VPCNotFound : String := "VPCNotFound"

/-- Modelled from the spec: reason token `SubnetNotFound`. -/
def SubnetNotFound : String := "SubnetNotFound"

/-- Modelled from the spec: reason token `SecondaryRangeNotFound`. -/
def SecondaryRangeNotFound : String := "SecondaryRangeNotFound"

/-- Modelled from the spec: reason token `NetworkAttachmentInvalid`. -/
def NetworkAttachmentInvalid : String := "NetworkAttachmentInvalid"

/-- Modelled from the spec: reason token `DeviceModeCantUseDefaultVPC`. -/
def DeviceModeCantUseDefaultVPC : String := "DeviceModeCantUseDefaultVPC"

/-- Modelled from the spec: reason token `DeviceModeSubnetAlreadyInUse`. -/
def DeviceModeSubnetAlreadyInUse : String := "DeviceModeSubnetAlreadyInUse"

/-- Modelled from the spec: reason token `L3SecondaryMissing`. -/
def L3SecondaryMissing : String := "L3SecondaryMissing"

/-- Modelled from the spec: reason token `NetworkAttachmentUnsupported`. -/
def NetworkAttachmentUnsupported : String := "NetworkAttachmentUnsupported"

/-- Modelled from the spec: reason token `DeviceModeMissing`. -/
def DeviceModeMissing : String := "DeviceModeMissing"

/-- Modelled from the spec: the fixed success reason token of the
ParameterSet flavor, `"Ready"` (Go constant `networkv1.GNPReady`). -/
def GNPReady : String := "Ready"

/-- Modelled from the spec: the fixed success reason token of the
cross-validation flavor, `"ParamsReady"` (Go constant `networkv1.GNPParamsReady`). -/
def GNPParamsReady : String := "ParamsReady"

/-- Modelled from the spec: the fixed condition-type string of the
ParameterSet verdict flavor (Go `networkv1.GKENetworkParamSetStatusReady`). -/
def GKENetworkParamSetStatusReady : String := "Ready"

/-- Modelled from the spec: the fixed condition-type string of the
cross-validation verdict flavor (Go `networkv1.NetworkConditionStatusParamsReady`). -/
def NetworkConditionStatusParamsReady : String := "ParamsReady"

/-- Modelled from the spec: network-type enum token for Layer3 networks
(Go constant `networkv1.L3NetworkType`). -/
def L3NetworkType : String := "L3"

/-- Modelled from the spec: network-type enum token for Device networks
(Go constant `networkv1.DeviceNetworkType`). -/
def DeviceNetworkType : String := "Device"

end networkv1

namespace metav1

/-- Modelled from the spec: condition status token `True`
(Go `metav1.ConditionTrue`). -/
def ConditionTrue : String := "True"

/-- Modelled from the spec: condition status token `False`
(Go `metav1.ConditionFalse`). -/
def ConditionFalse : String := "False"

/-- `metav1.Condition`: the status record a verdict is projected onto.
All fields default to the Go zero value (empty string), matching
`condition := metav1.Condition{}`. -/
structure Condition where
  type : String := ""
  status : String := ""
  reason : String := ""
  message : String := ""
  deriving Repr, DecidableEq

end metav1

/-! ## Data model -/

/-- `networkv1.SecondaryRanges`: the struct behind the
`Spec.PodIPv4Ranges` pointer; carries the secondary range names. -/
structure SecondaryRanges where
  RangeNames : List String
  deriving Repr, DecidableEq

/-- The spec fields of a `networkv1.GKENetworkParamSet` used by the
validators.  `PodIPv4Ranges` is a nilable pointer in Go, hence `Option`. -/
structure GNPSpec where
  VPC : String := ""
  VPCSubnet : String := ""
  DeviceMode : String := ""
  NetworkAttachment : String := ""
  PodIPv4Ranges : Option SecondaryRanges := none
  deriving Repr, DecidableEq

/-- A `networkv1.GKENetworkParamSet` resource: object metadata (name,
creation timestamp) plus the spec fields.  The timestamp is a comparable
instant; `metav1.Time.After` is strict `>`. -/
structure GKENetworkParamSet where
  Name : String := ""
  CreationTimestamp : Nat := 0
  Spec : GNPSpec := {}
  deriving Repr, DecidableEq

/-- `compute.SecondaryRange`-like entry of a subnet (field `RangeName`). -/
structure SubnetSecondaryRange where
  RangeName : String
  deriving Repr, DecidableEq

/-- `compute.Subnetwork`: the cloud-fetched subnet snapshot; only the
secondary ranges are consulted by the validators. -/
structure Subnetwork where
  SecondaryIpRanges : List SubnetSecondaryRange := []
  deriving Repr, DecidableEq

/-- `compute.Network`: the cloud-fetched VPC object; the validators only
test it for nil-ness, so the payload is just its name. -/
structure GoNetwork where
  Name : String := ""
  deriving Repr, DecidableEq

/-- The spec fields of a `networkv1.Network` used by cross-validation:
its type enum token (`type'` because `Type` is a Lean keyword). -/
structure NetworkSpec where
  type' : String := ""
  deriving Repr, DecidableEq

/-- A `networkv1.Network` resource. -/
structure Network where
  Spec : NetworkSpec := {}
  deriving Repr, DecidableEq

/-- `gnpValidation`: the ParameterSet-flavor verdict.  Fields default to
Go zero values, matching literals like `&gnpValidation{IsValid: true}`. -/
structure gnpValidation where
  IsValid : Bool
  ErrorReason : String := ""
  ErrorMessage : String := ""
  deriving Repr, DecidableEq

/-- `gnpNetworkCrossValidation`: the cross-validation-flavor verdict. -/
structure gnpNetworkCrossValidation where
  IsValid : Bool
  ErrorReason : String := ""
  ErrorMessage : String := ""
  deriving Repr, DecidableEq

/-- The cloud / cluster collaborators consulted by the cloud-backed
validators (`c.gceCloud` and the informer lister).  Each fallible Go call
returning `(value, err)` is an `Except String` value; `getNetwork` and
`getSubnetwork` additionally return `Option` because Go may hand back a
nil object with a nil error.  `parseNetworkResourceName` models
`cloud.ParseResourceURL(c.gceCloud.NetworkURL()).Key.Name`, i.e. the name
of the cluster's default network. -/
structure CloudEnv where
  region : String := ""
  onXPN : Bool := false
  getSubnetwork : String → String → Except String (Option Subnetwork) := fun _ _ => .ok none
  getNetwork : String → Except String (Option GoNetwork) := fun _ => .ok none
  parseNetworkResourceName : Except String String := .ok ""
  listGNP : Except String (List GKENetworkParamSet) := .ok []

/-! ## Pod-range utilities -/

/-- `hasRangeNames`: true iff `Spec.PodIPv4Ranges` is non-nil and its
`RangeNames` list is non-empty. -/
def hasRangeNames (params : GKENetworkParamSet) : Bool :=
  match params.Spec.PodIPv4Ranges with
  | some pr => pr.RangeNames.length > 0
  | none => false

/-! ## toCondition projections -/

/-- `(*gnpValidation).toCondition`. -/
def gnpValidation.toCondition (val : gnpValidation) : metav1.Condition :=
  let condition : metav1.Condition := {}
  let condition :=
    if val.IsValid then
      { condition with status := metav1.ConditionTrue, reason := networkv1.GNPReady }
    else
      { condition with status := metav1.ConditionFalse, reason := val.ErrorReason,
                       message := val.ErrorMessage }
  { condition with type := networkv1.GKENetworkParamSetStatusReady }

/-- `(*gnpNetworkCrossValidation).toCondition`. -/
def gnpNetworkCrossValidation.toCondition (val : gnpNetworkCrossValidation) :
    metav1.Condition :=
  let condition : metav1.Condition := {}
  let condition :=
    if val.IsValid then
      { condition with status := metav1.ConditionTrue, reason := networkv1.GNPParamsReady }
    else
      { condition with status := metav1.ConditionFalse, reason := val.ErrorReason,
                       message := val.ErrorMessage }
  { condition with type := networkv1.NetworkConditionStatusParamsReady }

/-! ## Field-combination validator -/

/-- `(*Controller).validateFieldCombinations` (pure: the receiver and
context are unused by the Go body). -/
def validateFieldCombinations (params : GKENetworkParamSet) : gnpValidation :=
  let hasAttachment := params.Spec.NetworkAttachment != ""
  let hasVPC := params.Spec.VPC != ""
  let hasSubnet := params.Spec.VPCSubnet != ""
  let hasDeviceMode := params.Spec.DeviceMode != ""
  let hasSecondaryRanges := hasRangeNames params
  if !hasAttachment && (!hasVPC || !hasSubnet) then
    { IsValid := false,
      ErrorReason := networkv1.GNPConfigInvalid,
      ErrorMessage := "NetworkAttachment or (VPC + VPCSubnet) must be specified" }
  else if hasAttachment then
    if hasVPC || hasSubnet || hasDeviceMode || hasSecondaryRanges then
      { IsValid := false,
        ErrorReason := networkv1.GNPConfigInvalid,
        ErrorMessage := "When NetworkAttachment is specified, none of the following can be specified: (VPC, VPCSubnet, DeviceMode, PodIPv4Ranges)" }
    else
      { IsValid := true }
  else if !hasSecondaryRanges && !hasDeviceMode then
    { IsValid := false,
      ErrorReason := networkv1.SecondaryRangeAndDeviceModeUnspecified,
      ErrorMessage := "One of PodIPV4Ranges or DeviceMode must be specified." }
  else if hasSecondaryRanges && hasDeviceMode then
    { IsValid := false,
      ErrorReason := networkv1.DeviceModeCantBeUsedWithSecondaryRange,
      ErrorMessage := "PodIPv4Ranges and DeviceMode can not be specified at the same time" }
  else
    { IsValid := true }

/-! ## Attachment format validator

Go gates `validateNetworkAttachment` on
`networkAttachmentRE.MatchString(netAttachment)` with the unanchored
pattern `projects/([^/]+)/regions/([^/]+)/networkAttachments/([^/]+)`.
Go's `MatchString` reports whether the string CONTAINS a match of the
pattern anywhere, so we embed the regex engine's behaviour on this fixed
pattern: `matchAt` decides whether the pattern matches a prefix of a
character list (each `[^/]+` group is forced to be the maximal slash-free
run, which is the only possibility because each group is followed by a
literal `/`; the trailing group only needs one non-slash character), and
`containsMatch` tries every start position, as the RE2 engine does. -/

/-- Strip an expected literal off the front of a character list. -/
def stripLit : List Char → List Char → Option (List Char)
  | [], cs => some cs
  | _ :: _, [] => none
  | l :: ls, c :: cs => if c = l then stripLit ls cs else none

/-- Split a character list at the first `'/'`: the maximal slash-free
prefix, and the rest. -/
def spanNonSlash : List Char → List Char × List Char
  | [] => ([], [])
  | c :: cs =>
    if c = '/' then ([], c :: cs)
    else
      let p := spanNonSlash cs
      (c :: p.1, p.2)

/-- The pattern matches a prefix of `cs` (anchored at the start). -/
def matchAt (cs : List Char) : Bool :=
  match stripLit "projects/".data cs with
  | none => false
  | some r1 =>
    let s1 := spanNonSlash r1
    if s1.1 = [] then false
    else
      match stripLit "/regions/".data s1.2 with
      | none => false
      | some r2 =>
        let s2 := spanNonSlash r2
        if s2.1 = [] then false
        else
          match stripLit "/networkAttachments/".data s2.2 with
          | none => false
          | some r3 =>
            match r3 with
            | [] => false
            | c :: _ => c ≠ '/'

/-- The pattern matches somewhere inside `cs`: Go `MatchString`. -/
def containsMatch : List Char → Bool
  | [] => matchAt []
  | c :: cs => matchAt (c :: cs) || containsMatch cs

/-- `networkAttachmentRE.MatchString`, on this fixed pattern. -/
def networkAttachmentMatchString (s : String) : Bool :=
  containsMatch s.data

/-- `(*Controller).validateNetworkAttachment` (pure: receiver and context
unused).  `%q` is rendered as surrounding double quotes. -/
def validateNetworkAttachment (netAttachment : String) : gnpValidation :=
  if !networkAttachmentMatchString netAttachment then
    { IsValid := false,
      ErrorReason := networkv1.NetworkAttachmentInvalid,
      ErrorMessage := "invalid network attachment name: \"" ++ netAttachment ++ "\". Must match projects/PROJECT_ID/regions/REGION/networkAttachments/NETWORK_ATTACHMENT" }
  else
    { IsValid := true }

/-- Modelled from the spec: the spec reads the attachment check as "the
string matches the fixed pattern
`projects/<project>/regions/<region>/networkAttachments/<name>` where
each segment is one-or-more non-slash characters" — i.e. a full-string
match, stated declaratively for comparison with the code's unanchored
`MatchString`. -/
def matchesAttachmentPattern (s : String) : Prop :=
  ∃ p r n,
    s.data = "projects/".data ++ p ++ "/regions/".data ++ r ++
      "/networkAttachments/".data ++ n ∧
    p ≠ [] ∧ '/' ∉ p ∧ r ≠ [] ∧ '/' ∉ r ∧ n ≠ [] ∧ '/' ∉ n

/-! ## Subnet fetch sub-check -/

/-- `(*Controller).getAndValidateSubnet`.  Go returns
`(*compute.Subnetwork, *gnpValidation)`; the validation pointer is never
nil, so the pair is `Option Subnetwork × gnpValidation`.  The branch
condition `err != nil || subnet == nil` covers both the `.error` and the
`.ok none` shapes of the collaborator's reply. -/
def getAndValidateSubnet (env : CloudEnv) (params : GKENetworkParamSet) :
    Option Subnetwork × gnpValidation :=
  if params.Spec.VPCSubnet = "" then
    (none, { IsValid := false,
             ErrorReason := networkv1.SubnetNotFound,
             ErrorMessage := "subnet not specified" })
  else
    match env.getSubnetwork env.region params.Spec.VPCSubnet with
    | .error _ =>
        (none, { IsValid := false,
                 ErrorReason := networkv1.SubnetNotFound,
                 ErrorMessage := "subnet: " ++ params.Spec.VPCSubnet ++ " not found in VPC: " ++ params.Spec.VPC })
    | .ok none =>
        (none, { IsValid := false,
                 ErrorReason := networkv1.SubnetNotFound,
                 ErrorMessage := "subnet: " ++ params.Spec.VPCSubnet ++ " not found in VPC: " ++ params.Spec.VPC })
    | .ok (some subnet) => (some subnet, { IsValid := true })

/-! ## Cloud referential validator -/

/-- The Go test `err != nil || network == nil` on `GetNetwork`'s reply. -/
def isNetworkMissing : Except String (Option GoNetwork) → Bool
  | .error _ => true
  | .ok none => true
  | .ok (some _) => false

/-- Body of the Go loop over `params.Spec.PodIPv4Ranges.RangeNames`
(line 189): the first named range with no matching
`subnet.SecondaryIpRanges` entry, if any.  The pointer dereference is
guarded by `hasRangeNames` at the call site, hence the `none` arm. -/
def firstMissingRange (params : GKENetworkParamSet) (subnet : Subnetwork) :
    Option String :=
  match params.Spec.PodIPv4Ranges with
  | none => none
  | some pr =>
      pr.RangeNames.find? fun rangeName =>
        !(subnet.SecondaryIpRanges.any fun sr => sr.RangeName == rangeName)

/-- The per-element test of the device-mode uniqueness scan (line 238):
`isDifferentGNP && isMatchingSubnet && isParamsNewer`, where
`CreationTimestamp.After` is strict `>`. -/
def isConflictingGNP (params other : GKENetworkParamSet) : Bool :=
  (params.Name != other.Name)
    && (params.Spec.VPCSubnet == other.Spec.VPCSubnet)
    && decide (other.CreationTimestamp < params.CreationTimestamp)

/-- The verdict built when the uniqueness scan finds a conflicting GNP.
Note the Go format string prints `otherGNP.Spec.VPC` into the
"Subnet '%s'" slot, faithfully reproduced. -/
def deviceModeInUseVerdict (other : GKENetworkParamSet) : gnpValidation :=
  { IsValid := false,
    ErrorReason := networkv1.DeviceModeSubnetAlreadyInUse,
    ErrorMessage := "GNP with deviceMode can't reference a subnet already in use. Subnet '" ++ other.Spec.VPC ++ "' is already in use by '" ++ other.Name ++ "'" }

/-- `(*Controller).validateGKENetworkParamSet`.  Go returns
`(*gnpValidation, error)`: a pair of nilable results, embedded as a pair
of `Option`s.  The two `if isDeviceModeSpecified` blocks of the source
are merged into one conditional, and the range-existence loop becomes
`firstMissingRange`. -/
def validateGKENetworkParamSet (env : CloudEnv) (params : GKENetworkParamSet)
    (subnet : Subnetwork) : Option gnpValidation × Option String :=
  if params.Spec.VPC = "" then
    (some { IsValid := false,
            ErrorReason := networkv1.VPCNotFound,
            ErrorMessage := "VPC not specified" }, none)
  else if !env.onXPN && isNetworkMissing (env.getNetwork params.Spec.VPC) then
    (some { IsValid := false,
            ErrorReason := networkv1.VPCNotFound,
            ErrorMessage := "VPC: " ++ params.Spec.VPC ++ " not found" }, none)
  else
    let isSecondaryRangeSpecified := hasRangeNames params
    let isDeviceModeSpecified := params.Spec.DeviceMode != ""
    if !isSecondaryRangeSpecified && !isDeviceModeSpecified then
      (some { IsValid := false,
              ErrorReason := networkv1.SecondaryRangeAndDeviceModeUnspecified,
              ErrorMessage := "SecondaryRange and DeviceMode are unspecified. One must be specified." }, none)
    else
      match
        (if isSecondaryRangeSpecified && !isDeviceModeSpecified then
          firstMissingRange params subnet
        else none) with
      | some rangeName =>
          (some { IsValid := false,
                  ErrorReason := networkv1.SecondaryRangeNotFound,
                  ErrorMessage := "secondary range: " ++ rangeName ++ " not found in subnet: " ++ params.Spec.VPCSubnet }, none)
      | none =>
        if isSecondaryRangeSpecified && isDeviceModeSpecified then
          (some { IsValid := false,
                  ErrorReason := networkv1.DeviceModeCantBeUsedWithSecondaryRange,
                  ErrorMessage := "deviceMode and secondary range can not be specified at the same time" }, none)
        else if isDeviceModeSpecified then
          match env.parseNetworkResourceName with
          | .error e => (none, some e)
          | .ok defaultNetworkName =>
            if params.Spec.VPC = defaultNetworkName then
              (some { IsValid := false,
                      ErrorReason := networkv1.DeviceModeCantUseDefaultVPC,
                      ErrorMessage := "GNP with deviceMode can't reference the default VPC" }, none)
            else
              match env.listGNP with
              | .error e => (none, some e)
              | .ok gnpList =>
                match gnpList.find? (isConflictingGNP params) with
                | some otherGNP => (some (deviceModeInUseVerdict otherGNP), none)
                | none => (some { IsValid := true }, none)
        else (some { IsValid := true }, none)

/-! ## Cross-resource validator -/

/-- `crossValidateNetworkAndGnp`. -/
def crossValidateNetworkAndGnp (network : Network) (params : GKENetworkParamSet) :
    gnpNetworkCrossValidation :=
  let isSecondaryRangeSpecified := hasRangeNames params
  let isVPCSpecified := params.Spec.VPC != ""
  let isVPCSubnetSpecified := params.Spec.VPCSubnet != ""
  let isNetworkAttachmentSpecified := params.Spec.NetworkAttachment != ""
  let firstGroup : Option gnpNetworkCrossValidation :=
    if network.Spec.type' == networkv1.L3NetworkType then
      if isVPCSpecified && isVPCSubnetSpecified && !isSecondaryRangeSpecified then
        some { IsValid := false,
               ErrorReason := networkv1.L3SecondaryMissing,
               ErrorMessage := "L3 type network referring to params with (VPC + VPCSUbnet) pair requires secondary range to be specified in params" }
      else none
    else if isNetworkAttachmentSpecified then
      some { IsValid := false,
             ErrorReason := networkv1.NetworkAttachmentUnsupported,
             ErrorMessage := "NetworkAttachment is only allowed for L3 type networks." }
    else none
  match firstGroup with
  | some v => v
  | none =>
    if network.Spec.type' == networkv1.DeviceNetworkType then
      if params.Spec.DeviceMode = "" then
        { IsValid := false,
          ErrorReason := networkv1.DeviceModeMissing,
          ErrorMessage := "Device type network requires device mode to be specified in params" }
      else { IsValid := true }
    else { IsValid := true }

/-! ## Order-independent slice comparison -/

/-- Phase 1 of `sameStringSlice`: `diff[a]++` on the Go count map.  The
map is modelled as its counting function; a key is present in the Go map
exactly when its count here is positive (values are only ever inserted at
1 and deleted when decremented to 0). -/
def incrCount (f : String → Nat) (a : String) : String → Nat :=
  fun s => if s = a then f s + 1 else f s

/-- The count map built by the first Go loop: `for _, a := range x { diff[a]++ }`. -/
def buildDiff (x : List String) : String → Nat :=
  x.foldl incrCount (fun _ => 0)

/-- Phase 2 of `sameStringSlice`: for each `b` of `y`, fail when `b` is
absent from the map (count 0), else decrement (deleting on reaching 0).
Returns the final map when every element of `y` was consumed. -/
def consume : (String → Nat) → List String → Option (String → Nat)
  | f, [] => some f
  | f, b :: bs =>
    if f b = 0 then none
    else consume (fun s => if s = b then f b - 1 else f s) bs

/-- `sameStringSlice`: length check, count map build, consume, and the
final `len(diff) == 0` test.  Since only elements of `x` ever have a
positive count, the Go emptiness test is equivalent to every element of
`x` having count 0. -/
def sameStringSlice (x y : List String) : Bool :=
  if x.length ≠ y.length then false
  else
    match consume (buildDiff x) y with
    | none => false
    | some f => x.all fun a => f a = 0

/-- `samePodIPv4Ranges`. -/
def samePodIPv4Ranges (params originalParams : GKENetworkParamSet) : Bool :=
  if !hasRangeNames params && !hasRangeNames originalParams then true
  else if hasRangeNames params && hasRangeNames originalParams then
    match params.Spec.PodIPv4Ranges, originalParams.Spec.PodIPv4Ranges with
    | some pr, some opr => sameStringSlice pr.RangeNames opr.RangeNames
    | _, _ => false
  else false

/-- The range-name list carried by a ParameterSet (empty when the
`PodIPv4Ranges` pointer is nil), used to state range-set properties. -/
def rangeNames (p : GKENetworkParamSet) : List String :=
  match p.Spec.PodIPv4Ranges with
  | some pr => pr.RangeNames
  | none => []

/-! ## Theorems -/

/-- Phase 1 of `sameStringSlice` counts multiplicities: folding
`incrCount` adds each element's multiplicity to the initial map. -/
theorem foldl_incrCount (x : List String) :
    ∀ (f : String → Nat) (s : String), (x.foldl incrCount f) s = f s + x.count s := by
  induction x with
  | nil => intro f s; simp
  | cons a t ih =>
      intro f s
      simp only [List.foldl_cons, List.count_cons, ih]
      by_cases h : s = a
      · subst h; simp [incrCount]; omega
      · have : (a == s) = false := by simp [Ne.symm h]
        simp [incrCount, h, this]

/-- The count map of `x` is exactly the multiplicity function of `x`. -/
theorem buildDiff_apply (x : List String) (s : String) :
    buildDiff x s = x.count s := by
  simp [buildDiff, foldl_incrCount]

/-- A successful `consume` leaves each key's count decreased by the
consumed list's multiplicity. -/
theorem consume_eq_some (y : List String) :
    ∀ (f g : String → Nat), consume f y = some g →
      ∀ s, g s = f s - y.count s := by
  induction y with
  | nil => intro f g h s; simp [consume] at h; simp [← h]
  | cons b bs ih =>
      intro f g h s
      simp only [consume] at h
      by_cases hb : f b = 0
      · simp [hb] at h
      · rw [if_neg hb] at h
        have := ih _ g h s
        rw [this]
        by_cases hs : s = b
        · subst hs; simp [List.count_cons]; omega
        · have hbs : (b == s) = false := by simp [Ne.symm hs]
          simp [List.count_cons, hs, hbs]

/-- `consume` succeeds exactly when the map dominates the consumed
list's multiplicities. -/
theorem consume_isSome_iff (y : List String) :
    ∀ (f : String → Nat), (consume f y).isSome = true ↔ ∀ s, y.count s ≤ f s := by
  induction y with
  | nil => intro f; simp [consume]
  | cons b bs ih =>
      intro f
      simp only [consume]
      by_cases hb : f b = 0
      · simp only [hb, if_pos rfl]
        constructor
        · intro h; simp at h
        · intro h
          have := h b
          simp [List.count_cons, hb] at this
      · rw [if_neg hb]
        rw [ih]
        constructor
        · intro h s
          have := h s
          by_cases hs : s = b
          · subst hs
            simp at this
            simp [List.count_cons]
            omega
          · simp only [if_neg hs] at this
            have hbs : (b == s) = false := by simp [Ne.symm hs]
            simp [List.count_cons, hbs]
            omega
        · intro h s
          by_cases hs : s = b
          · subst hs
            have := h s
            simp [List.count_cons] at this
            simp
            omega
          · rw [if_neg hs]
            have := h s
            have hbs : (b == s) = false := by simp [Ne.symm hs]
            simp [List.count_cons, hbs] at this
            omega

/-- `sameStringSlice` decides permutation equivalence (equality of
multiplicity at every name). -/
theorem sameStringSlice_iff_perm (x y : List String) :
    sameStringSlice x y = true ↔ x.Perm y := by
  rw [List.perm_iff_count]
  unfold sameStringSlice
  by_cases hlen : x.length = y.length
  · rw [if_neg (by simp [hlen])]
    cases hc : consume (buildDiff x) y with
    | none =>
        simp only [Bool.false_eq_true, false_iff]
        intro hcount
        have : (consume (buildDiff x) y).isSome = true := by
          rw [consume_isSome_iff]
          intro s
          rw [buildDiff_apply, hcount s]
        rw [hc] at this
        simp at this
    | some f =>
        have hf : ∀ s, f s = x.count s - y.count s := by
          intro s
          rw [consume_eq_some y _ _ hc s, buildDiff_apply]
        have hle : ∀ s, y.count s ≤ x.count s := by
          have : (consume (buildDiff x) y).isSome = true := by rw [hc]; rfl
          rw [consume_isSome_iff] at this
          intro s; have := this s; rw [buildDiff_apply] at this; exact this
        simp only [List.all_eq_true, decide_eq_true_eq]
        constructor
        · intro hall s
          by_cases hmem : s ∈ x
          · have h1 := hall s hmem
            rw [hf s] at h1
            have := hle s
            omega
          · have hx0 : x.count s = 0 := List.count_eq_zero.mpr hmem
            have := hle s
            omega
        · intro hcount a _
          rw [hf a, hcount a]
          omega
  · rw [if_pos (by simp [hlen])]
    simp only [Bool.false_eq_true, false_iff]
    intro hcount
    apply hlen
    have : x.Perm y := List.perm_iff_count.mpr hcount
    exact this.length_eq

/-- Full characterization of `samePodIPv4Ranges`: true iff both sides
lack non-empty range lists, or both have them with equal multisets. -/
theorem samePodIPv4Ranges_char (p q : GKENetworkParamSet) :
    samePodIPv4Ranges p q = true ↔
      ((hasRangeNames p = false ∧ hasRangeNames q = false) ∨
       (hasRangeNames p = true ∧ hasRangeNames q = true ∧
        (↑(rangeNames p) : Multiset String) = ↑(rangeNames q))) := by
  by_cases hp : hasRangeNames p = true <;> by_cases hq : hasRangeNames q = true
  · cases hpr : p.Spec.PodIPv4Ranges with
    | none => rw [hasRangeNames, hpr] at hp; simp at hp
    | some pr =>
      cases hqr : q.Spec.PodIPv4Ranges with
      | none => rw [hasRangeNames, hqr] at hq; simp at hq
      | some qr =>
        simp only [samePodIPv4Ranges, hp, hq, hpr, hqr, Bool.not_true,
          Bool.and_self, Bool.false_and, if_false, if_true, Bool.and_true]
        rw [if_neg (by simp), sameStringSlice_iff_perm]
        simp only [rangeNames, hpr, hqr]
        simp [Multiset.coe_eq_coe]
  · simp only [Bool.not_eq_true] at hq
    simp [samePodIPv4Ranges, hp, hq]
  · simp only [Bool.not_eq_true] at hp
    simp [samePodIPv4Ranges, hp, hq]
  · simp only [Bool.not_eq_true] at hp hq
    simp [samePodIPv4Ranges, hp, hq]

/-- C9: `samePodIPv4Ranges` is reflexive and symmetric; it is true
exactly when both sides lack non-empty range lists or both have them
with equal name multisets; it is false when exactly one side has ranges;
`{a,b}` vs `{b,a}` is true and `{a,b}` vs `{a}` is false. -/
theorem samePodIPv4Ranges_spec :
    (∀ p : GKENetworkParamSet, samePodIPv4Ranges p p = true) ∧
    (∀ p q : GKENetworkParamSet, samePodIPv4Ranges p q = samePodIPv4Ranges q p) ∧
    (∀ p q : GKENetworkParamSet, samePodIPv4Ranges p q = true ↔
      ((hasRangeNames p = false ∧ hasRangeNames q = false) ∨
       (hasRangeNames p = true ∧ hasRangeNames q = true ∧
        (↑(rangeNames p) : Multiset String) = ↑(rangeNames q)))) ∧
    (∀ p q : GKENetworkParamSet, hasRangeNames p ≠ hasRangeNames q →
      samePodIPv4Ranges p q = false) ∧
    samePodIPv4Ranges { Spec := { PodIPv4Ranges := some ⟨["a", "b"]⟩ } }
      { Spec := { PodIPv4Ranges := some ⟨["b", "a"]⟩ } } = true ∧
    samePodIPv4Ranges { Spec := { PodIPv4Ranges := some ⟨["a", "b"]⟩ } }
      { Spec := { PodIPv4Ranges := some ⟨["a"]⟩ } } = false := by
  refine ⟨?_, ?_, samePodIPv4Ranges_char, ?_, by decide, by decide⟩
  · intro p
    rw [samePodIPv4Ranges_char]
    cases hp : hasRangeNames p
    · exact Or.inl ⟨rfl, rfl⟩
    · exact Or.inr ⟨rfl, rfl, rfl⟩
  · intro p q
    rw [Bool.eq_iff_iff, samePodIPv4Ranges_char, samePodIPv4Ranges_char]
    constructor
    · rintro (⟨h1, h2⟩ | ⟨h1, h2, h3⟩)
      · exact Or.inl ⟨h2, h1⟩
      · exact Or.inr ⟨h2, h1, h3.symm⟩
    · rintro (⟨h1, h2⟩ | ⟨h1, h2, h3⟩)
      · exact Or.inl ⟨h2, h1⟩
      · exact Or.inr ⟨h2, h1, h3.symm⟩
  · intro p q hne
    cases h : samePodIPv4Ranges p q
    · rfl
    · exfalso
      rcases (samePodIPv4Ranges_char p q).mp h with ⟨h1, h2⟩ | ⟨h1, h2, _⟩
      · exact hne (h1.trans h2.symm)
      · exact hne (h1.trans h2.symm)

/-- C9 witness: one side with ranges against one without is not same. -/
theorem samePodIPv4Ranges_spec_witness :
    samePodIPv4Ranges { Spec := { PodIPv4Ranges := some ⟨["a"]⟩ } } {} = false :=
  samePodIPv4Ranges_spec.2.2.2.1
    { Spec := { PodIPv4Ranges := some ⟨["a"]⟩ } } {} (by decide)

/-- C2: `validateFieldCombinations` returns invalid with reason
`ConfigInvalid` exactly when (a) `networkAttachment` is unset and not both
`vpc` and `vpcSubnet` are set, or (b) `networkAttachment` is set together
with any of `vpc`, `vpcSubnet`, `deviceMode`, or non-empty `podRanges`;
and when `networkAttachment` is set alone it returns valid immediately. -/
theorem validateFieldCombinations_configInvalid_iff (params : GKENetworkParamSet) :
    (((validateFieldCombinations params).IsValid = false ∧
      (validateFieldCombinations params).ErrorReason = networkv1.GNPConfigInvalid) ↔
      ((params.Spec.NetworkAttachment = "" ∧
        (params.Spec.VPC = "" ∨ params.Spec.VPCSubnet = "")) ∨
       (params.Spec.NetworkAttachment ≠ "" ∧
        (params.Spec.VPC ≠ "" ∨ params.Spec.VPCSubnet ≠ "" ∨
         params.Spec.DeviceMode ≠ "" ∨ hasRangeNames params = true)))) ∧
    (params.Spec.NetworkAttachment ≠ "" → params.Spec.VPC = "" →
      params.Spec.VPCSubnet = "" → params.Spec.DeviceMode = "" →
      hasRangeNames params = false →
      validateFieldCombinations params = { IsValid := true }) := by
  by_cases hA : params.Spec.NetworkAttachment = "" <;>
  by_cases hV : params.Spec.VPC = "" <;>
  by_cases hS : params.Spec.VPCSubnet = "" <;>
  by_cases hD : params.Spec.DeviceMode = "" <;>
  cases hR : hasRangeNames params <;>
  simp [validateFieldCombinations, hA, hV, hS, hD, hR,
    networkv1.GNPConfigInvalid, networkv1.SecondaryRangeAndDeviceModeUnspecified,
    networkv1.DeviceModeCantBeUsedWithSecondaryRange]

/-- C2 witness: a ParameterSet with only `networkAttachment` set validates
as valid. -/
theorem validateFieldCombinations_configInvalid_iff_witness :
    validateFieldCombinations { Spec := { NetworkAttachment := "att" } } =
      { IsValid := true } :=
  (validateFieldCombinations_configInvalid_iff
    { Spec := { NetworkAttachment := "att" } }).2 (by decide) rfl rfl rfl rfl

/-- C3: in VPC/subnet mode (attachment unset, `vpc` and `vpcSubnet` set),
`validateFieldCombinations` fails with
`SecondaryRangeAndDeviceModeUnspecified` when neither `deviceMode` nor
non-empty `podRanges` is set, fails with
`DeviceModeCantBeUsedWithSecondaryRange` when both are, and is valid when
exactly one is; a present-but-empty range list counts as unset. -/
theorem validateFieldCombinations_vpcSubnetMode (params : GKENetworkParamSet)
    (hA : params.Spec.NetworkAttachment = "")
    (hV : params.Spec.VPC ≠ "") (hS : params.Spec.VPCSubnet ≠ "") :
    (hasRangeNames params = false → params.Spec.DeviceMode = "" →
      validateFieldCombinations params =
        { IsValid := false,
          ErrorReason := networkv1.SecondaryRangeAndDeviceModeUnspecified,
          ErrorMessage := "One of PodIPV4Ranges or DeviceMode must be specified." }) ∧
    (hasRangeNames params = true → params.Spec.DeviceMode ≠ "" →
      validateFieldCombinations params =
        { IsValid := false,
          ErrorReason := networkv1.DeviceModeCantBeUsedWithSecondaryRange,
          ErrorMessage := "PodIPv4Ranges and DeviceMode can not be specified at the same time" }) ∧
    (hasRangeNames params = true → params.Spec.DeviceMode = "" →
      validateFieldCombinations params = { IsValid := true }) ∧
    (hasRangeNames params = false → params.Spec.DeviceMode ≠ "" →
      validateFieldCombinations params = { IsValid := true }) ∧
    (params.Spec.PodIPv4Ranges = some ⟨[]⟩ → hasRangeNames params = false) := by
  refine ⟨?_, ?_, ?_, ?_, fun h => by simp [hasRangeNames, h]⟩ <;>
  · intro hR hD
    simp [validateFieldCombinations, hA, hV, hS, hD, hR]

/-- C3 witness: with `vpc`/`vpcSubnet` set and only `deviceMode` among the
exclusive pair, validation is valid. -/
theorem validateFieldCombinations_vpcSubnetMode_witness :
    validateFieldCombinations
      { Spec := { VPC := "v", VPCSubnet := "s", DeviceMode := "netdevice" } } =
      { IsValid := true } :=
  (validateFieldCombinations_vpcSubnetMode
    { Spec := { VPC := "v", VPCSubnet := "s", DeviceMode := "netdevice" } }
    rfl (by decide) (by decide)).2.2.2.1 rfl (by decide)

/-- C6: `crossValidateNetworkAndGnp` fails with `L3SecondaryMissing` for a
Layer3 network whose params set `vpc`+`vpcSubnet` without pod ranges,
fails with `NetworkAttachmentUnsupported` for a non-Layer3 network whose
params set `networkAttachment`, fails with `DeviceModeMissing` for a
Device network whose params lack `deviceMode` when the first rule group
did not already fail, and is valid otherwise; both rule groups are
evaluated in the same pass. -/
theorem crossValidateNetworkAndGnp_cases (network : Network)
    (params : GKENetworkParamSet) :
    (network.Spec.type' = networkv1.L3NetworkType →
      params.Spec.VPC ≠ "" → params.Spec.VPCSubnet ≠ "" → hasRangeNames params = false →
      crossValidateNetworkAndGnp network params =
        { IsValid := false, ErrorReason := networkv1.L3SecondaryMissing,
          ErrorMessage := "L3 type network referring to params with (VPC + VPCSUbnet) pair requires secondary range to be specified in params" }) ∧
    (network.Spec.type' ≠ networkv1.L3NetworkType → params.Spec.NetworkAttachment ≠ "" →
      crossValidateNetworkAndGnp network params =
        { IsValid := false, ErrorReason := networkv1.NetworkAttachmentUnsupported,
          ErrorMessage := "NetworkAttachment is only allowed for L3 type networks." }) ∧
    (network.Spec.type' = networkv1.DeviceNetworkType → params.Spec.DeviceMode = "" →
      params.Spec.NetworkAttachment = "" →
      crossValidateNetworkAndGnp network params =
        { IsValid := false, ErrorReason := networkv1.DeviceModeMissing,
          ErrorMessage := "Device type network requires device mode to be specified in params" }) ∧
    (¬(network.Spec.type' = networkv1.L3NetworkType ∧ params.Spec.VPC ≠ "" ∧
        params.Spec.VPCSubnet ≠ "" ∧ hasRangeNames params = false) →
      ¬(network.Spec.type' ≠ networkv1.L3NetworkType ∧
        params.Spec.NetworkAttachment ≠ "") →
      ¬(network.Spec.type' = networkv1.DeviceNetworkType ∧
        params.Spec.DeviceMode = "") →
      crossValidateNetworkAndGnp network params = { IsValid := true }) := by
  by_cases hL : network.Spec.type' = networkv1.L3NetworkType <;>
  by_cases hDev : network.Spec.type' = networkv1.DeviceNetworkType <;>
  by_cases hV : params.Spec.VPC = "" <;>
  by_cases hS : params.Spec.VPCSubnet = "" <;>
  by_cases hD : params.Spec.DeviceMode = "" <;>
  by_cases hN : params.Spec.NetworkAttachment = "" <;>
  cases hR : hasRangeNames params <;>
  simp_all [crossValidateNetworkAndGnp, networkv1.L3NetworkType,
    networkv1.DeviceNetworkType]

/-- C6 witness: a Layer3 network with `vpc`+`vpcSubnet` params and no pod
ranges yields `L3SecondaryMissing`. -/
theorem crossValidateNetworkAndGnp_cases_witness :
    crossValidateNetworkAndGnp { Spec := { type' := "L3" } }
      { Spec := { VPC := "v", VPCSubnet := "s" } } =
      { IsValid := false, ErrorReason := networkv1.L3SecondaryMissing,
        ErrorMessage := "L3 type network referring to params with (VPC + VPCSUbnet) pair requires secondary range to be specified in params" } :=
  (crossValidateNetworkAndGnp_cases { Spec := { type' := "L3" } }
    { Spec := { VPC := "v", VPCSubnet := "s" } }).1 rfl (by decide) (by decide) rfl

/-- C7: both `toCondition` flavors are pure functions of the verdict:
a valid verdict yields status `True` with the flavor's fixed success
reason and an empty message regardless of the verdict's error fields; an
invalid verdict yields status `False` with the verdict's reason and
message; the condition type is the flavor's fixed string in every case. -/
theorem toCondition_deterministic :
    (∀ v : gnpValidation,
      (v.IsValid = true → v.toCondition =
        { type := networkv1.GKENetworkParamSetStatusReady,
          status := metav1.ConditionTrue, reason := networkv1.GNPReady,
          message := "" }) ∧
      (v.IsValid = false → v.toCondition =
        { type := networkv1.GKENetworkParamSetStatusReady,
          status := metav1.ConditionFalse, reason := v.ErrorReason,
          message := v.ErrorMessage })) ∧
    (∀ v : gnpNetworkCrossValidation,
      (v.IsValid = true → v.toCondition =
        { type := networkv1.NetworkConditionStatusParamsReady,
          status := metav1.ConditionTrue, reason := networkv1.GNPParamsReady,
          message := "" }) ∧
      (v.IsValid = false → v.toCondition =
        { type := networkv1.NetworkConditionStatusParamsReady,
          status := metav1.ConditionFalse, reason := v.ErrorReason,
          message := v.ErrorMessage })) := by
  constructor <;> intro v <;> cases hv : v.IsValid <;>
  simp [gnpValidation.toCondition, gnpNetworkCrossValidation.toCondition, hv]

/-- C7 witness: a valid verdict carrying junk error fields still projects
to the fixed success condition with an empty message. -/
theorem toCondition_deterministic_witness :
    gnpValidation.toCondition
      { IsValid := true, ErrorReason := "junk", ErrorMessage := "junk message" } =
      { type := networkv1.GKENetworkParamSetStatusReady,
        status := metav1.ConditionTrue, reason := networkv1.GNPReady,
        message := "" } :=
  (toCondition_deterministic.1
    { IsValid := true, ErrorReason := "junk", ErrorMessage := "junk message" }).1 rfl

/-- The Bool conflict test of the uniqueness scan, as a Prop. -/
theorem isConflictingGNP_iff (params other : GKENetworkParamSet) :
    isConflictingGNP params other = true ↔
      (params.Name ≠ other.Name ∧ params.Spec.VPCSubnet = other.Spec.VPCSubnet ∧
        other.CreationTimestamp < params.CreationTimestamp) := by
  simp [isConflictingGNP, and_assoc]

/-- C8: an empty `vpc` yields a `VPCNotFound` verdict for every cloud
environment (so before/independent of any cloud call); off shared-VPC
mode, a VPC absent from the cloud also yields `VPCNotFound`; in
shared-VPC mode the VPC existence lookup is skipped, so the result does
not depend on the `getNetwork` collaborator at all. -/
theorem validateGKENetworkParamSet_vpcCheck :
    (∀ (env : CloudEnv) (params : GKENetworkParamSet) (subnet : Subnetwork),
      params.Spec.VPC = "" →
      validateGKENetworkParamSet env params subnet =
        (some { IsValid := false, ErrorReason := networkv1.VPCNotFound,
                ErrorMessage := "VPC not specified" }, none)) ∧
    (∀ (env : CloudEnv) (params : GKENetworkParamSet) (subnet : Subnetwork),
      env.onXPN = false → params.Spec.VPC ≠ "" →
      env.getNetwork params.Spec.VPC = .ok none →
      validateGKENetworkParamSet env params subnet =
        (some { IsValid := false, ErrorReason := networkv1.VPCNotFound,
                ErrorMessage := "VPC: " ++ params.Spec.VPC ++ " not found" }, none)) ∧
    (∀ (env : CloudEnv) (g' : String → Except String (Option GoNetwork))
       (params : GKENetworkParamSet) (subnet : Subnetwork),
      env.onXPN = true →
      validateGKENetworkParamSet env params subnet =
        validateGKENetworkParamSet { env with getNetwork := g' } params subnet) := by
  refine ⟨fun env params subnet h => ?_, fun env params subnet hX hV hN => ?_,
    fun env g' params subnet hX => ?_⟩
  · simp [validateGKENetworkParamSet, h]
  · simp [validateGKENetworkParamSet, hX, hV, hN, isNetworkMissing]
  · simp [validateGKENetworkParamSet, hX]

/-- C8 witness: a ParameterSet with empty `vpc` gets the `VPCNotFound`
verdict under the default environment. -/
theorem validateGKENetworkParamSet_vpcCheck_witness :
    validateGKENetworkParamSet {} {} {} =
      (some { IsValid := false, ErrorReason := networkv1.VPCNotFound,
              ErrorMessage := "VPC not specified" }, none) :=
  validateGKENetworkParamSet_vpcCheck.1 {} {} {} rfl

/-- C10: `validateGKENetworkParamSet` always returns exactly one of its
two results non-nil: a non-nil verdict with nil error, or a nil verdict
with non-nil error. -/
theorem validateGKENetworkParamSet_exactlyOneResult (env : CloudEnv)
    (params : GKENetworkParamSet) (subnet : Subnetwork) :
    ((validateGKENetworkParamSet env params subnet).1.isSome = true ∧
     (validateGKENetworkParamSet env params subnet).2 = none) ∨
    ((validateGKENetworkParamSet env params subnet).1 = none ∧
     (validateGKENetworkParamSet env params subnet).2.isSome = true) := by
  by_cases hR : hasRangeNames params = true <;>
  by_cases hD : params.Spec.DeviceMode = "" <;>
  simp only [validateGKENetworkParamSet, hR, hD] <;>
  repeat' split
  all_goals simp_all

/-- C4: once the device-mode uniqueness scan is reached (device mode set,
all earlier checks passing), the validator rejects with
`DeviceModeSubnetAlreadyInUse` naming a conflicting resource exactly when
the listing contains a ParameterSet of a different name targeting the
same `vpcSubnet` whose creation timestamp is strictly earlier; with no
such strictly-older resource (including the identical-timestamp tie) the
verdict is valid. -/
theorem validateGKENetworkParamSet_deviceModeUniqueness (env : CloudEnv)
    (params : GKENetworkParamSet) (subnet : Subnetwork)
    (gnpList : List GKENetworkParamSet)
    (hV : params.Spec.VPC ≠ "")
    (hNet : env.onXPN = true ∨ isNetworkMissing (env.getNetwork params.Spec.VPC) = false)
    (hR : hasRangeNames params = false)
    (hD : params.Spec.DeviceMode ≠ "")
    (dn : String) (hParse : env.parseNetworkResourceName = .ok dn)
    (hDefault : params.Spec.VPC ≠ dn)
    (hList : env.listGNP = .ok gnpList) :
    ((∃ other, validateGKENetworkParamSet env params subnet =
        (some (deviceModeInUseVerdict other), none) ∧
        other ∈ gnpList ∧ params.Name ≠ other.Name ∧
        params.Spec.VPCSubnet = other.Spec.VPCSubnet ∧
        other.CreationTimestamp < params.CreationTimestamp) ↔
      (∃ other ∈ gnpList, params.Name ≠ other.Name ∧
        params.Spec.VPCSubnet = other.Spec.VPCSubnet ∧
        other.CreationTimestamp < params.CreationTimestamp)) ∧
    ((∀ other ∈ gnpList, ¬(params.Name ≠ other.Name ∧
        params.Spec.VPCSubnet = other.Spec.VPCSubnet ∧
        other.CreationTimestamp < params.CreationTimestamp)) →
      validateGKENetworkParamSet env params subnet =
        (some { IsValid := true }, none)) := by
  have hreduce : validateGKENetworkParamSet env params subnet =
      match gnpList.find? (isConflictingGNP params) with
      | some otherGNP => (some (deviceModeInUseVerdict otherGNP), none)
      | none => (some { IsValid := true }, none) := by
    rcases hNet with hX | hN
    · simp [validateGKENetworkParamSet, hV, hR, hD, hParse, hDefault, hList, hX]
    · simp [validateGKENetworkParamSet, hV, hR, hD, hParse, hDefault, hList, hN]
  rw [hreduce]
  constructor
  · constructor
    · rintro ⟨other, _, hmem, hprops⟩
      exact ⟨other, hmem, hprops⟩
    · rintro ⟨other, hmem, hprops⟩
      cases hfind : gnpList.find? (isConflictingGNP params) with
      | none =>
          exfalso
          have := List.find?_eq_none.mp hfind other hmem
          exact this ((isConflictingGNP_iff params other).mpr hprops)
      | some o =>
          refine ⟨o, by simp, List.mem_of_find?_eq_some hfind, ?_⟩
          exact (isConflictingGNP_iff params o).mp (List.find?_some hfind)
  · intro hnone
    have hfind : gnpList.find? (isConflictingGNP params) = none := by
      apply List.find?_eq_none.mpr
      intro o hmem hconf
      exact hnone o hmem ((isConflictingGNP_iff params o).mp hconf)
    rw [hfind]

/-- C4 witness: with an older ParameterSet `x` and a newer `y` both
targeting subnet `s1` in the listing, validating `y` rejects with the
`DeviceModeSubnetAlreadyInUse` verdict naming a strictly-older
same-subnet resource of a different name. -/
theorem validateGKENetworkParamSet_deviceModeUniqueness_witness :
    ∃ other,
      validateGKENetworkParamSet
        { onXPN := true, parseNetworkResourceName := .ok "default",
          listGNP := .ok
            [{ Name := "x", CreationTimestamp := 1,
               Spec := { VPC := "v", VPCSubnet := "s1", DeviceMode := "dm" } },
             { Name := "y", CreationTimestamp := 2,
               Spec := { VPC := "v", VPCSubnet := "s1", DeviceMode := "dm" } }] }
        { Name := "y", CreationTimestamp := 2,
          Spec := { VPC := "v", VPCSubnet := "s1", DeviceMode := "dm" } } {} =
        (some (deviceModeInUseVerdict other), none) ∧
      other ∈
        [{ Name := "x", CreationTimestamp := 1,
           Spec := { VPC := "v", VPCSubnet := "s1", DeviceMode := "dm" } },
         { Name := "y", CreationTimestamp := 2,
           Spec := { VPC := "v", VPCSubnet := "s1", DeviceMode := "dm" } }] ∧
      ("y" : String) ≠ other.Name ∧ ("s1" : String) = other.Spec.VPCSubnet ∧
      other.CreationTimestamp < 2 :=
  (validateGKENetworkParamSet_deviceModeUniqueness
    { onXPN := true, parseNetworkResourceName := .ok "default",
      listGNP := .ok
        [{ Name := "x", CreationTimestamp := 1,
           Spec := { VPC := "v", VPCSubnet := "s1", DeviceMode := "dm" } },
         { Name := "y", CreationTimestamp := 2,
           Spec := { VPC := "v", VPCSubnet := "s1", DeviceMode := "dm" } }] }
    { Name := "y", CreationTimestamp := 2,
      Spec := { VPC := "v", VPCSubnet := "s1", DeviceMode := "dm" } } {}
    [{ Name := "x", CreationTimestamp := 1,
       Spec := { VPC := "v", VPCSubnet := "s1", DeviceMode := "dm" } },
     { Name := "y", CreationTimestamp := 2,
       Spec := { VPC := "v", VPCSubnet := "s1", DeviceMode := "dm" } }]
    (by decide) (Or.inl rfl) rfl (by decide) "default" rfl (by decide) rfl).1.mpr
    ⟨{ Name := "x", CreationTimestamp := 1,
       Spec := { VPC := "v", VPCSubnet := "s1", DeviceMode := "dm" } },
      by decide, by decide, by decide, by decide⟩

/-- C1 counterexample: a cloud-API failure of the network fetch is
converted into a `VPCNotFound` invalid verdict with nil transport error,
and a failure of the subnet fetch into a `SubnetNotFound` verdict —
contradicting the claim that such failures propagate as transport errors
with no verdict. -/
theorem cloudFetchError_counterexample :
    validateGKENetworkParamSet
      { getNetwork := fun _ => .error "cloud API failure" }
      { Spec := { VPC := "v", VPCSubnet := "s", DeviceMode := "dm" } } {} =
      (some { IsValid := false, ErrorReason := networkv1.VPCNotFound,
              ErrorMessage := "VPC: v not found" }, none) ∧
    getAndValidateSubnet
      { getSubnetwork := fun _ _ => .error "cloud API failure" }
      { Spec := { VPC := "v", VPCSubnet := "s" } } =
      (none, { IsValid := false, ErrorReason := networkv1.SubnetNotFound,
               ErrorMessage := "subnet: s not found in VPC: v" }) := by
  constructor <;> rfl

/-- C1 (amended): a failing network fetch is absorbed into the
`VPCNotFound` verdict, a failing subnet fetch into the `SubnetNotFound`
verdict (both with nil error); a transport error is returned (with no
verdict) only when the resource-URL parse or the ParameterSet listing
fails. -/
theorem cloudFetchError_becomesVerdict :
    (∀ (env : CloudEnv) (params : GKENetworkParamSet) (subnet : Subnetwork)
       (e : String),
      env.onXPN = false → params.Spec.VPC ≠ "" →
      env.getNetwork params.Spec.VPC = .error e →
      validateGKENetworkParamSet env params subnet =
        (some { IsValid := false, ErrorReason := networkv1.VPCNotFound,
                ErrorMessage := "VPC: " ++ params.Spec.VPC ++ " not found" }, none)) ∧
    (∀ (env : CloudEnv) (params : GKENetworkParamSet) (e : String),
      params.Spec.VPCSubnet ≠ "" →
      env.getSubnetwork env.region params.Spec.VPCSubnet = .error e →
      getAndValidateSubnet env params =
        (none, { IsValid := false, ErrorReason := networkv1.SubnetNotFound,
                 ErrorMessage := "subnet: " ++ params.Spec.VPCSubnet ++ " not found in VPC: " ++ params.Spec.VPC })) ∧
    (∀ (env : CloudEnv) (params : GKENetworkParamSet) (subnet : Subnetwork)
       (e : String),
      (validateGKENetworkParamSet env params subnet).2 = some e →
      env.parseNetworkResourceName = .error e ∨ env.listGNP = .error e) := by
  refine ⟨fun env params subnet e hX hV hN => ?_, fun env params e hS hN => ?_,
    fun env params subnet e => ?_⟩
  · simp [validateGKENetworkParamSet, hX, hV, hN, isNetworkMissing]
  · simp [getAndValidateSubnet, hS, hN]
  · by_cases hR : hasRangeNames params = true <;>
    by_cases hD : params.Spec.DeviceMode = "" <;>
    simp only [validateGKENetworkParamSet, hR, hD] <;>
    repeat' split
    all_goals simp_all

/-- C1 (amended) witness: a concrete failing network fetch produces the
`VPCNotFound` verdict with nil transport error. -/
theorem cloudFetchError_becomesVerdict_witness :
    validateGKENetworkParamSet { getNetwork := fun _ => .error "boom" }
      { Spec := { VPC := "w", VPCSubnet := "s", DeviceMode := "dm" } } {} =
      (some { IsValid := false, ErrorReason := networkv1.VPCNotFound,
              ErrorMessage := "VPC: " ++ "w" ++ " not found" }, none) :=
  cloudFetchError_becomesVerdict.1 { getNetwork := fun _ => .error "boom" }
    { Spec := { VPC := "w", VPCSubnet := "s", DeviceMode := "dm" } } {} "boom"
    rfl (by decide) rfl

/-- Stripping a literal prefix succeeds exactly on lists that start with
that literal. -/
theorem stripLit_eq_some (lit : List Char) :
    ∀ (cs rest : List Char), stripLit lit cs = some rest ↔ cs = lit ++ rest := by
  induction lit with
  | nil => intro cs rest; simp [stripLit]
  | cons l ls ih =>
      intro cs rest
      cases cs with
      | nil => simp [stripLit]
      | cons c cs' =>
          simp only [stripLit, List.cons_append, List.cons.injEq]
          by_cases h : c = l
          · rw [if_pos h, ih]
            simp [h]
          · rw [if_neg h]
            simp [h]

/-- `spanNonSlash` splits exactly at a slash-free prefix followed by a
slash (or end of input). -/
theorem spanNonSlash_append (p : List Char) :
    ∀ rest : List Char, '/' ∉ p → (rest = [] ∨ ∃ t, rest = '/' :: t) →
      spanNonSlash (p ++ rest) = (p, rest) := by
  induction p with
  | nil =>
      intro rest _ hrest
      rcases hrest with rfl | ⟨t, rfl⟩
      · simp [spanNonSlash]
      · simp [spanNonSlash]
  | cons c p' ih =>
      intro rest hnp hrest
      have hc : c ≠ '/' := fun h => hnp (h ▸ List.mem_cons_self c p')
      have hnp' : '/' ∉ p' := fun h => hnp (List.mem_cons_of_mem c h)
      simp only [List.cons_append, spanNonSlash, List.append_eq]
      rw [if_neg hc, ih rest hnp' hrest]

/-- Inversion for `spanNonSlash`: its output decomposes the input, the
prefix is slash-free and the remainder is empty or starts with a slash. -/
theorem spanNonSlash_eq :
    ∀ (cs a b : List Char), spanNonSlash cs = (a, b) →
      cs = a ++ b ∧ '/' ∉ a ∧ (b = [] ∨ ∃ t, b = '/' :: t) := by
  intro cs
  induction cs with
  | nil =>
      intro a b h
      simp only [spanNonSlash, Prod.mk.injEq] at h
      obtain ⟨rfl, rfl⟩ := h
      simp
  | cons c cs' ih =>
      intro a b h
      simp only [spanNonSlash] at h
      by_cases hc : c = '/'
      · rw [if_pos hc] at h
        simp only [Prod.mk.injEq] at h
        obtain ⟨rfl, rfl⟩ := h
        exact ⟨by simp, by simp, Or.inr ⟨cs', by rw [hc]⟩⟩
      · rw [if_neg hc] at h
        rcases hs : spanNonSlash cs' with ⟨a', b'⟩
        rw [hs] at h
        simp only [Prod.mk.injEq] at h
        obtain ⟨rfl, rfl⟩ := h
        obtain ⟨h1, h2, h3⟩ := ih a' b' hs
        refine ⟨by simp [h1], ?_, h3⟩
        intro hm
        rcases List.mem_cons.mp hm with h' | h'
        · exact hc h'.symm
        · exact h2 h'

/-- The anchored matcher accepts exactly the lists that decompose as the
pattern followed by anything (the trailing `[^/]+` needs one non-slash
character). -/
theorem matchAt_iff (cs : List Char) :
    matchAt cs = true ↔
      ∃ p r c rest,
        cs = "projects/".data ++ p ++ "/regions/".data ++ r ++
          "/networkAttachments/".data ++ (c :: rest) ∧
        p ≠ [] ∧ '/' ∉ p ∧ r ≠ [] ∧ '/' ∉ r ∧ c ≠ '/' := by
  constructor
  · intro h
    unfold matchAt at h
    cases h1 : stripLit "projects/".data cs with
    | none => simp [h1] at h
    | some r1 =>
      simp only [h1] at h
      rcases hsp1 : spanNonSlash r1 with ⟨p, t1⟩
      simp only [hsp1] at h
      by_cases hp : p = []
      · rw [if_pos hp] at h; simp at h
      rw [if_neg hp] at h
      cases h2 : stripLit "/regions/".data t1 with
      | none => simp [h2] at h
      | some r2 =>
        simp only [h2] at h
        rcases hsp2 : spanNonSlash r2 with ⟨r, t2⟩
        simp only [hsp2] at h
        by_cases hr : r = []
        · rw [if_pos hr] at h; simp at h
        rw [if_neg hr] at h
        cases h3 : stripLit "/networkAttachments/".data t2 with
        | none => simp [h3] at h
        | some r3 =>
          simp only [h3] at h
          cases r3 with
          | nil => simp at h
          | cons c rest =>
            simp only [decide_eq_true_eq] at h
            have hr1 : cs = "projects/".data ++ r1 := (stripLit_eq_some _ _ _).mp h1
            obtain ⟨e1, hpnos, -⟩ := spanNonSlash_eq r1 p t1 hsp1
            have ht1 : t1 = "/regions/".data ++ r2 := (stripLit_eq_some _ _ _).mp h2
            obtain ⟨e2, hrnos, -⟩ := spanNonSlash_eq r2 r t2 hsp2
            have ht2 : t2 = "/networkAttachments/".data ++ (c :: rest) :=
              (stripLit_eq_some _ _ _).mp h3
            refine ⟨p, r, c, rest, ?_, hp, hpnos, hr, hrnos, h⟩
            rw [hr1, e1, ht1, e2, ht2]
            simp [List.append_assoc]
  · rintro ⟨p, r, c, rest, heq, hp, hpnos, hr, hrnos, hc⟩
    subst heq
    have h1 : stripLit "projects/".data
        ("projects/".data ++ p ++ "/regions/".data ++ r ++
          "/networkAttachments/".data ++ (c :: rest)) =
        some (p ++ ("/regions/".data ++ (r ++ ("/networkAttachments/".data ++ (c :: rest))))) :=
      (stripLit_eq_some _ _ _).mpr (by simp [List.append_assoc])
    have hsp1 : spanNonSlash
        (p ++ ("/regions/".data ++ (r ++ ("/networkAttachments/".data ++ (c :: rest))))) =
        (p, "/regions/".data ++ (r ++ ("/networkAttachments/".data ++ (c :: rest)))) :=
      spanNonSlash_append p _ hpnos (Or.inr ⟨_, rfl⟩)
    have h2 : stripLit "/regions/".data
        ("/regions/".data ++ (r ++ ("/networkAttachments/".data ++ (c :: rest)))) =
        some (r ++ ("/networkAttachments/".data ++ (c :: rest))) :=
      (stripLit_eq_some _ _ _).mpr rfl
    have hsp2 : spanNonSlash (r ++ ("/networkAttachments/".data ++ (c :: rest))) =
        (r, "/networkAttachments/".data ++ (c :: rest)) :=
      spanNonSlash_append r _ hrnos (Or.inr ⟨_, rfl⟩)
    have h3 : stripLit "/networkAttachments/".data
        ("/networkAttachments/".data ++ (c :: rest)) = some (c :: rest) :=
      (stripLit_eq_some _ _ _).mpr rfl
    unfold matchAt
    simp only [h1, hsp1, h2, hsp2, h3]
    rw [if_neg hp, if_neg hr]
    simp [hc]

/-- Go `MatchString` semantics: the pattern matches somewhere iff the
input splits as an arbitrary prefix followed by an anchored match. -/
theorem containsMatch_iff (cs : List Char) :
    containsMatch cs = true ↔ ∃ pre tail, cs = pre ++ tail ∧ matchAt tail = true := by
  induction cs with
  | nil =>
      simp only [containsMatch]
      constructor
      · intro h; exact ⟨[], [], rfl, h⟩
      · rintro ⟨pre, tail, heq, hm⟩
        have h1 : pre = [] ∧ tail = [] := List.append_eq_nil.mp heq.symm
        rw [← h1.2]; exact hm
  | cons c cs' ih =>
      simp only [containsMatch, Bool.or_eq_true, ih]
      constructor
      · rintro (h | ⟨pre, tail, heq, hm⟩)
        · exact ⟨[], c :: cs', rfl, h⟩
        · exact ⟨c :: pre, tail, by simp [heq], hm⟩
      · rintro ⟨pre, tail, heq, hm⟩
        cases pre with
        | nil =>
            left
            simp only [List.nil_append] at heq
            rw [heq]; exact hm
        | cons d pre' =>
            right
            simp only [List.cons_append, List.cons.injEq] at heq
            exact ⟨pre', tail, heq.2, hm⟩

/-- C5 counterexample: `validateNetworkAttachment` accepts
`"xprojects/p1/regions/r1/networkAttachments/na1"`, a string that does
not match the fixed pattern as a whole (Go `MatchString` is unanchored),
so "valid iff the string matches the fixed pattern" fails. -/
theorem validateNetworkAttachment_unanchored_counterexample :
    validateNetworkAttachment "xprojects/p1/regions/r1/networkAttachments/na1" =
      { IsValid := true } ∧
    ¬ matchesAttachmentPattern "xprojects/p1/regions/r1/networkAttachments/na1" := by
  refine ⟨by decide, ?_⟩
  rintro ⟨p, r, n, heq, -, -, -, -, -, -⟩
  have h2 : some 'x' = some 'p' := congrArg List.head? heq
  exact absurd h2 (by decide)

/-- C5 (amended): `validateNetworkAttachment` returns valid iff the
string CONTAINS a substring matching
`projects/<project>/regions/<region>/networkAttachments/<name>` (each
segment one-or-more non-slash characters, the match allowed to start and
end mid-string); any other string gets the `NetworkAttachmentInvalid`
verdict whose message cites the expected pattern. -/
theorem validateNetworkAttachment_containsPattern (s : String) :
    ((validateNetworkAttachment s).IsValid = true ↔
      ∃ pre p r n suf,
        s.data = pre ++ "projects/".data ++ p ++ "/regions/".data ++ r ++
          "/networkAttachments/".data ++ n ++ suf ∧
        p ≠ [] ∧ '/' ∉ p ∧ r ≠ [] ∧ '/' ∉ r ∧ n ≠ [] ∧ '/' ∉ n) ∧
    ((validateNetworkAttachment s).IsValid = false →
      validateNetworkAttachment s =
        { IsValid := false, ErrorReason := networkv1.NetworkAttachmentInvalid,
          ErrorMessage := "invalid network attachment name: \"" ++ s ++ "\". Must match projects/PROJECT_ID/regions/REGION/networkAttachments/NETWORK_ATTACHMENT" }) := by
  constructor
  · have hval : (validateNetworkAttachment s).IsValid = true ↔
        containsMatch s.data = true := by
      cases hm : networkAttachmentMatchString s <;>
      · have hm' : containsMatch s.data = networkAttachmentMatchString s := rfl
        simp [validateNetworkAttachment, hm, hm']
    rw [hval, containsMatch_iff]
    constructor
    · rintro ⟨pre, tail, heq, hm⟩
      obtain ⟨p, r, c, rest, rfl, hp, hpnos, hr, hrnos, hc⟩ := (matchAt_iff tail).mp hm
      refine ⟨pre, p, r, [c], rest, ?_, hp, hpnos, hr, hrnos, by simp, ?_⟩
      · rw [heq]; simp [List.append_assoc]
      · intro hmem; exact hc (List.mem_singleton.mp hmem).symm
    · rintro ⟨pre, p, r, n, suf, heq, hp, hpnos, hr, hrnos, hn, hnnos⟩
      cases n with
      | nil => exact absurd rfl hn
      | cons c n' =>
        have hc : c ≠ '/' := fun h => hnnos (h ▸ List.mem_cons_self c n')
        refine ⟨pre, "projects/".data ++ p ++ "/regions/".data ++ r ++
          "/networkAttachments/".data ++ (c :: (n' ++ suf)), ?_, ?_⟩
        · rw [heq]; simp [List.append_assoc]
        · exact (matchAt_iff _).mpr ⟨p, r, c, n' ++ suf, rfl, hp, hpnos, hr, hrnos, hc⟩
  · cases hm : networkAttachmentMatchString s <;>
    simp [validateNetworkAttachment, hm]

/-- C5 (amended) witness: the canonical well-formed attachment name is
accepted. -/
theorem validateNetworkAttachment_containsPattern_witness :
    (validateNetworkAttachment
      "projects/p1/regions/us-central1/networkAttachments/na1").IsValid = true :=
  (validateNetworkAttachment_containsPattern
    "projects/p1/regions/us-central1/networkAttachments/na1").1.mpr
    ⟨[], "p1".data, "us-central1".data, "na1".data, [], by decide, by decide,
      by decide, by decide, by decide, by decide, by decide⟩

end GnpValidations
